import Mathlib

/-!
Shallow embedding of the trainset induction decision engine:
the data model (src/models/trainset.py), the induction scheduler
(src/optimization/scheduler.py) and the what-if engine
(src/simulation/scenario_engine.py).

Conventions of the embedding:
* timestamps (datetime values) are integers counting days; the evaluation
  instant datetime.now() is passed explicitly as a parameter `now`;
* Python floats are embedded as rationals;
* Python code that can raise an exception (float division by zero in the
  composite scorer) is embedded as an Option-valued function, `none`
  standing for the raised exception, which propagates to every caller.
-/

open List

inductive TrainsetStatus where
  | revenue_service
  | standby
  | maintenance
  | cleaning
  | out_of_service
deriving DecidableEq, Repr, Fintype

inductive CertificateType where
  | rolling_stock
  | signalling
  | telecom
deriving DecidableEq, Repr

inductive JobCardStatus where
  | open_
  | closed
  | in_progress
deriving DecidableEq, Repr

structure FitnessCertificate where
  certificate_type : CertificateType
  issue_date : ℤ
  expiry_date : ℤ
  is_valid : Bool
  issuing_department : String
deriving DecidableEq, Repr

structure JobCard where
  job_id : String
  trainset_id : String
  status : JobCardStatus
  priority : ℤ
  estimated_hours : ℚ
  description : String
  created_date : ℤ
deriving DecidableEq, Repr

structure BrandingContract where
  contract_id : String
  advertiser : String
  required_exposure_hours : ℚ
  current_exposure_hours : ℚ
  start_date : ℤ
  end_date : ℤ
  penalty_rate : ℚ
deriving DecidableEq, Repr

structure Trainset where
  trainset_id : String
  car_count : ℤ
  current_status : TrainsetStatus
  current_mileage : ℚ
  last_maintenance_date : Option ℤ
  fitness_certificates : List FitnessCertificate
  job_cards : List JobCard
  branding_contract : Option BrandingContract
  stabling_bay : Option ℤ
  last_cleaning_date : Option ℤ
deriving DecidableEq, Repr

structure InductionDecision where
  trainset_id : String
  recommended_status : TrainsetStatus
  priority_score : ℚ
  reasoning : List String
  conflicts : List String
  estimated_service_hours : ℚ
deriving DecidableEq, Repr

/-- Trainset.is_service_ready (src/models/trainset.py, lines 64-77): all
certificates must be valid with expiry strictly in the future, and there must
be no open job card of priority at most 2. -/
def is_service_ready (now : ℤ) (t : Trainset) : Bool :=
  (t.fitness_certificates.all fun c => c.is_valid && decide (now < c.expiry_date)) &&
  !(t.job_cards.any fun jc =>
      decide (jc.status = JobCardStatus.open_) && decide (jc.priority ≤ 2))

/-- Total number of trainsets used by the stabling sub-score.  The scheduler
reads it through config_loader.get_total_trainsets(); the fleet configuration
file is external to the engine and the loader falls back to the default 25
(src/config/loader.py, line 37). -/
def get_total_trainsets : ℚ := 25

/-- Readiness sub-score of _calculate_composite_score. -/
def readiness_score (now : ℤ) (t : Trainset) : ℚ :=
  if is_service_ready now t then 1 else 0

/-- Mileage sub-score of _calculate_composite_score; avg_mileage is the
hard-coded constant 50000. -/
def mileage_score (t : Trainset) : ℚ :=
  max 0 (1 - (t.current_mileage - 50000) / 50000)

/-- Branding sub-score of _calculate_composite_score.  Python divides
current_exposure_hours by required_exposure_hours; when the latter is zero
this raises ZeroDivisionError, embedded here as none. -/
def branding_score (t : Trainset) : Option ℚ :=
  match t.branding_contract with
  | none => some (1/2)
  | some c =>
      if c.required_exposure_hours = 0 then none
      else some (max 0 (1 - c.current_exposure_hours / c.required_exposure_hours))

/-- Maintenance-urgency sub-score of _calculate_composite_score. -/
def maintenance_score (now : ℤ) (t : Trainset) : ℚ :=
  match t.last_maintenance_date with
  | none => 1/2
  | some md => min 1 (((now - md : ℤ) : ℚ) / 30)

/-- Stabling sub-score of _calculate_composite_score.  The source guards the
formula with the Python truthiness test `if trainset.stabling_bay:`, which is
false both for a missing bay and for bay number 0, so bay 0 keeps the 0.5
default. -/
def stabling_score (t : Trainset) : ℚ :=
  match t.stabling_bay with
  | none => 1/2
  | some b => if b = 0 then 1/2 else max 0 (1 - (b : ℚ) / get_total_trainsets)

/-- InductionScheduler._calculate_composite_score (src/optimization/scheduler.py,
lines 74-112): the weighted sum of the five sub-scores with the weight table
of the constructor.  none embeds the ZeroDivisionError raised by the branding
term. -/
def calc_composite_score (now : ℤ) (t : Trainset) : Option ℚ :=
  match branding_score t with
  | none => none
  | some bs =>
      some ((3/10) * readiness_score now t + (1/5) * mileage_score t +
            (1/5) * bs + (3/20) * maintenance_score now t +
            (3/20) * stabling_score t)

/-- Branding sub-score computed with total (rational) division; it agrees with
branding_score whenever the contract, if present, has nonzero required
exposure hours. -/
def branding_score_total (t : Trainset) : ℚ :=
  match t.branding_contract with
  | none => 1/2
  | some c => max 0 (1 - c.current_exposure_hours / c.required_exposure_hours)

/-- Composite score via total division; agrees with calc_composite_score on
every trainset whose branding contract, if present, has nonzero required
exposure hours. -/
def composite_score_total (now : ℤ) (t : Trainset) : ℚ :=
  (3/10) * readiness_score now t + (1/5) * mileage_score t +
  (1/5) * branding_score_total t + (3/20) * maintenance_score now t +
  (3/20) * stabling_score t

/-- A trainset on which the composite scorer cannot raise: its branding
contract, when present, has nonzero required exposure hours. -/
def branding_ok (t : Trainset) : Prop :=
  match t.branding_contract with
  | none => True
  | some c => c.required_exposure_hours ≠ 0

instance (t : Trainset) : Decidable (branding_ok t) := by
  unfold branding_ok
  cases t.branding_contract <;> infer_instance

/-- Scoring loop of optimize_induction (lines 47-50): scores are computed in
input order; the first exception aborts the whole call. -/
def score_all (now : ℤ) : List Trainset → Option (List (Trainset × ℚ))
  | [] => some []
  | t :: ts =>
      match calc_composite_score now t, score_all now ts with
      | some s, some rest => some ((t, s) :: rest)
      | _, _ => none

/-- Insertion step of the stable descending sort: a new element (earlier in
the input) is placed after every strictly larger score and before the first
score less than or equal to its own, hence before every tie. -/
def insert_by_score (x : Trainset × ℚ) : List (Trainset × ℚ) → List (Trainset × ℚ)
  | [] => [x]
  | y :: ys => if x.2 < y.2 then y :: insert_by_score x ys else x :: y :: ys

/-- Stable descending sort by score, the semantics of
scored_trainsets.sort(key=lambda x: x[1], reverse=True) at line 53: CPython's
sort is stable and reverse=True keeps ties in input order, which is exactly
what this insertion sort produces. -/
def sort_by_score_desc : List (Trainset × ℚ) → List (Trainset × ℚ)
  | [] => []
  | x :: xs => insert_by_score x (sort_by_score_desc xs)

/-- InductionScheduler._make_allocation_decision (lines 114-155). -/
def make_allocation_decision (now : ℤ) (t : Trainset) (score : ℚ)
    (current_service current_standby : ℕ) (service_demand : ℤ) : InductionDecision :=
  if ¬ (is_service_ready now t) then
    { trainset_id := t.trainset_id
      recommended_status := TrainsetStatus.maintenance
      priority_score := score
      reasoning := ["Trainset not service-ready due to certificates or job cards"]
      conflicts := []
      estimated_service_hours := 0 }
  else if (current_service : ℤ) < service_demand then
    { trainset_id := t.trainset_id
      recommended_status := TrainsetStatus.revenue_service
      priority_score := score
      reasoning := ["Allocated to service (demand: " ++ toString service_demand ++
                      ", current: " ++ toString current_service ++ ")",
                    "Composite score: " ++ toString score]
      conflicts := []
      estimated_service_hours := 16 }
  else
    { trainset_id := t.trainset_id
      recommended_status := TrainsetStatus.standby
      priority_score := score
      reasoning := ["Allocated to standby - service demand met"]
      conflicts := []
      estimated_service_hours := 0 }

/-- Allocation walk of optimize_induction (lines 56-69) over the sorted
scored list, threading the service and standby counters. -/
def allocate_loop (now : ℤ) (service_demand : ℤ) :
    List (Trainset × ℚ) → ℕ → ℕ → List InductionDecision
  | [], _, _ => []
  | p :: rest, service_count, standby_count =>
      let d := make_allocation_decision now p.1 p.2 service_count standby_count service_demand
      let service_count' :=
        if d.recommended_status = TrainsetStatus.revenue_service
        then service_count + 1 else service_count
      let standby_count' :=
        if d.recommended_status = TrainsetStatus.standby
        then standby_count + 1 else standby_count
      d :: allocate_loop now service_demand rest service_count' standby_count'

/-- InductionScheduler.optimize_induction (lines 30-72): score every trainset,
sort descending by score with ties in input order, then walk the sorted list
allocating service, standby and maintenance.  service_demand defaults to 20
as in the source. -/
def optimize_induction (now : ℤ) (trainsets : List Trainset)
    (service_demand : ℤ := 20) : Option (List InductionDecision) :=
  match score_all now trainsets with
  | none => none
  | some scored =>
      some (allocate_loop now service_demand (sort_by_score_desc scored) 0 0)

/-- Input list paired with composite scores (total-division form), the shape
of scored_trainsets before sorting. -/
def scored_input (now : ℤ) (vs : List Trainset) : List (Trainset × ℚ) :=
  vs.map fun t => (t, composite_score_total now t)

/-- The sorted scored list used by the allocation walk. -/
def ranked (now : ℤ) (vs : List Trainset) : List (Trainset × ℚ) :=
  sort_by_score_desc (scored_input now vs)

/-!  Scenario engine (src/simulation/scenario_engine.py).  Parameters arrive
as a Python dict read with .get and per-key defaults; the embedding collects
every key any built-in scenario reads into one structure carrying the same
defaults.  The reflective field assignment of _apply_custom_scenario
(setattr on any existing attribute) is embedded as a closed set of field
updates, one constructor per mutable attribute the custom path can touch. -/

inductive FieldChange where
  | set_current_status (s : TrainsetStatus)
  | set_current_mileage (m : ℚ)
  | set_stabling_bay (b : Option ℤ)
  | set_last_maintenance_date (d : Option ℤ)
deriving DecidableEq, Repr

structure Modification where
  trainset_id : Option String
  changes : List FieldChange
deriving DecidableEq, Repr

structure ScenarioParams where
  trainset_ids : List String := []
  certificate_type : CertificateType := CertificateType.telecom
  maintenance_hours : ℚ := 8
  trainset_id : Option String := none
  failure_type : String := "HVAC"
  repair_hours : ℚ := 12
  affected_bays : List ℤ := []
  impact_duration_hours : ℚ := 24
  modifications : List Modification := []
deriving Repr

/-- ScenarioEngine._simulate_certificate_expiry (lines 69-87): on every
listed trainset, each certificate of the named category is marked invalid
with expiry moved one day into the past. -/
def simulate_certificate_expiry (now : ℤ) (trainsets : List Trainset)
    (parameters : ScenarioParams) : List Trainset :=
  trainsets.map fun t =>
    if t.trainset_id ∈ parameters.trainset_ids then
      { t with fitness_certificates :=
          t.fitness_certificates.map fun c =>
            if c.certificate_type = parameters.certificate_type then
              { c with is_valid := false, expiry_date := now - 1 }
            else c }
    else t

/-- ScenarioEngine._simulate_emergency_maintenance (lines 89-113): appends a
priority-1 open job card to every listed trainset. -/
def simulate_emergency_maintenance (now : ℤ) (trainsets : List Trainset)
    (parameters : ScenarioParams) : List Trainset :=
  trainsets.map fun t =>
    if t.trainset_id ∈ parameters.trainset_ids then
      { t with job_cards := t.job_cards ++
          [{ job_id := "EMRG-" ++ t.trainset_id ++ "-" ++ toString now
             trainset_id := t.trainset_id
             status := JobCardStatus.open_
             priority := 1
             estimated_hours := parameters.maintenance_hours
             description := "Emergency maintenance - safety critical"
             created_date := now }] }
    else t

/-- ScenarioEngine._simulate_increased_demand (lines 115-121): returns an
unmodified deep copy (the identity under value semantics); the service demand
used by the policy is not changed. -/
def simulate_increased_demand (trainsets : List Trainset)
    (_parameters : ScenarioParams) : List Trainset :=
  trainsets

/-- ScenarioEngine._simulate_equipment_failure (lines 123-151): forces the
named trainset to maintenance status and appends a priority-1 open job card. -/
def simulate_equipment_failure (now : ℤ) (trainsets : List Trainset)
    (parameters : ScenarioParams) : List Trainset :=
  trainsets.map fun t =>
    if parameters.trainset_id = some t.trainset_id then
      { t with current_status := TrainsetStatus.maintenance
               job_cards := t.job_cards ++
          [{ job_id := "FAIL-" ++ t.trainset_id ++ "-" ++ toString now
             trainset_id := t.trainset_id
             status := JobCardStatus.open_
             priority := 1
             estimated_hours := parameters.repair_hours
             description := parameters.failure_type ++ " system failure"
             created_date := now }] }
    else t

/-- ScenarioEngine._simulate_weather_impact (lines 153-177): appends a
priority-2 open job card to every trainset stabled in an affected bay. -/
def simulate_weather_impact (now : ℤ) (trainsets : List Trainset)
    (parameters : ScenarioParams) : List Trainset :=
  trainsets.map fun t =>
    if (match t.stabling_bay with
        | some b => decide (b ∈ parameters.affected_bays)
        | none => false) then
      { t with job_cards := t.job_cards ++
          [{ job_id := "WTHR-" ++ t.trainset_id ++ "-" ++ toString now
             trainset_id := t.trainset_id
             status := JobCardStatus.open_
             priority := 2
             estimated_hours := parameters.impact_duration_hours
             description := "Weather impact inspection and cleaning"
             created_date := now }] }
    else t

/-- Apply one closed-variant field change, the embedding of setattr on a
matching attribute name. -/
def apply_field_change (t : Trainset) : FieldChange → Trainset
  | FieldChange.set_current_status s => { t with current_status := s }
  | FieldChange.set_current_mileage m => { t with current_mileage := m }
  | FieldChange.set_stabling_bay b => { t with stabling_bay := b }
  | FieldChange.set_last_maintenance_date d => { t with last_maintenance_date := d }

/-- ScenarioEngine._apply_custom_scenario (lines 179-196): every modification
entry is applied to the trainsets whose id matches; an id matching nothing is
silently a no-op. -/
def apply_custom_changes (trainsets : List Trainset)
    (parameters : ScenarioParams) : List Trainset :=
  parameters.modifications.foldl
    (fun acc m =>
      acc.map fun t =>
        if m.trainset_id = some t.trainset_id then m.changes.foldl apply_field_change t
        else t)
    trainsets

/-- The names registered in ScenarioEngine.base_scenarios (lines 21-27). -/
def builtin_kinds : List String :=
  ["certificate_expiry", "emergency_maintenance", "increased_demand",
   "equipment_failure", "weather_impact"]

/-- Perturbation dispatch of run_scenario (lines 49-52): a registered kind
selects its simulator, anything else falls through to the custom mutator. -/
def perturb (now : ℤ) (scenario_type : String) (trainsets : List Trainset)
    (parameters : ScenarioParams) : List Trainset :=
  if scenario_type = "certificate_expiry" then
    simulate_certificate_expiry now trainsets parameters
  else if scenario_type = "emergency_maintenance" then
    simulate_emergency_maintenance now trainsets parameters
  else if scenario_type = "increased_demand" then
    simulate_increased_demand trainsets parameters
  else if scenario_type = "equipment_failure" then
    simulate_equipment_failure now trainsets parameters
  else if scenario_type = "weather_impact" then
    simulate_weather_impact now trainsets parameters
  else
    apply_custom_changes trainsets parameters

structure StatusChange where
  trainset_id : String
  baseline_status : TrainsetStatus
  scenario_status : Option TrainsetStatus
deriving DecidableEq, Repr

@[ext]
structure AllocationComparison where
  baseline_counts : TrainsetStatus → ℕ
  scenario_counts : TrainsetStatus → ℕ
  differences : TrainsetStatus → ℤ
  changed_trainsets : List StatusChange
  total_changes : ℕ

/-- Per-status counting loops of _compare_allocations (lines 202-211); the
Python dicts with .get(status, 0) are embedded extensionally as functions
defaulting to 0. -/
def count_by_status (decisions : List InductionDecision) : TrainsetStatus → ℕ :=
  fun st => decisions.countP fun d => decide (d.recommended_status = st)

/-- Insertion into a Python dict: an existing key keeps its position and gets
the new value, a fresh key is appended. -/
def dict_insert (m : List (String × TrainsetStatus)) (k : String)
    (v : TrainsetStatus) : List (String × TrainsetStatus) :=
  match m with
  | [] => [(k, v)]
  | kv :: rest => if kv.1 = k then (k, v) :: rest else kv :: dict_insert rest k v

/-- The dict comprehension of lines 224-225, keyed by trainset id with
insertion order preserved. -/
def build_status_dict (decisions : List InductionDecision) :
    List (String × TrainsetStatus) :=
  decisions.foldl (fun m d => dict_insert m d.trainset_id d.recommended_status) []

/-- Python dict .get: the value at the first (unique) matching key. -/
def dict_get (m : List (String × TrainsetStatus)) (k : String) :
    Option TrainsetStatus :=
  (m.find? fun kv => kv.1 == k).map fun kv => kv.2

/-- ScenarioEngine._compare_allocations (lines 198-241): per-status counts for
both runs, their signed differences, and the changed-trainset list gathered by
iterating the baseline dict in insertion order. -/
def compare_allocations (baseline scenario : List InductionDecision) :
    AllocationComparison :=
  let baseline_counts := count_by_status baseline
  let scenario_counts := count_by_status scenario
  let differences : TrainsetStatus → ℤ :=
    fun st => (scenario_counts st : ℤ) - (baseline_counts st : ℤ)
  let scenario_dict := build_status_dict scenario
  let changed := (build_status_dict baseline).filterMap fun kv =>
    if dict_get scenario_dict kv.1 = some kv.2 then none
    else some { trainset_id := kv.1, baseline_status := kv.2,
                scenario_status := dict_get scenario_dict kv.1 : StatusChange }
  { baseline_counts := baseline_counts
    scenario_counts := scenario_counts
    differences := differences
    changed_trainsets := changed
    total_changes := changed.length }

structure ScenarioResult where
  scenario_type : String
  baseline_decisions : List InductionDecision
  scenario_decisions : List InductionDecision
  comparison : AllocationComparison

/-- ScenarioEngine.run_scenario (lines 29-67): baseline allocation on the
unmodified list, perturbation selected by kind, allocation on the perturbed
list, and the comparison of the two runs.  Both optimize_induction calls use
the default service_demand of 20, as in the source.  none embeds an exception
escaping from either allocation run. -/
def scenario_run (now : ℤ) (trainsets : List Trainset) (scenario_type : String)
    (parameters : ScenarioParams) : Option ScenarioResult :=
  match optimize_induction now trainsets with
  | none => none
  | some baseline_decisions =>
      match optimize_induction now (perturb now scenario_type trainsets parameters) with
      | none => none
      | some scenario_decisions =>
          some { scenario_type := scenario_type
                 baseline_decisions := baseline_decisions
                 scenario_decisions := scenario_decisions
                 comparison := compare_allocations baseline_decisions scenario_decisions }

/-- Status of the unique decision for a given trainset id, the lookup the
comparator performs through its dicts. -/
def decision_status (decisions : List InductionDecision) (i : String) :
    Option TrainsetStatus :=
  (decisions.find? fun d => d.trainset_id == i).map fun d => d.recommended_status

/-!  Concrete fixtures used by witnesses and counterexamples. -/

/-- A plain trainset: no certificates, no job cards, no optional fields,
mileage at the fleet average. -/
def base_trainset (i : String) : Trainset :=
  { trainset_id := i
    car_count := 4
    current_status := TrainsetStatus.standby
    current_mileage := 50000
    last_maintenance_date := none
    fitness_certificates := []
    job_cards := []
    branding_contract := none
    stabling_bay := none
    last_cleaning_date := none }

/-- A branding contract whose required exposure hours are zero. -/
def zero_required_contract : BrandingContract :=
  { contract_id := "BC-1"
    advertiser := "AdCo"
    required_exposure_hours := 0
    current_exposure_hours := 0
    start_date := 0
    end_date := 10
    penalty_rate := 1 }

/-- A service-ready trainset carrying the zero-required-hours contract. -/
def zero_required_trainset : Trainset :=
  { base_trainset "TS-Z" with branding_contract := some zero_required_contract }

/-- An open priority-1 job card. -/
def open_p1_card (i : String) : JobCard :=
  { job_id := "JC-" ++ i
    trainset_id := i
    status := JobCardStatus.open_
    priority := 1
    estimated_hours := 4
    description := "test job"
    created_date := 0 }

/-- A trainset that is not service-ready because of an open priority-1 card. -/
def unready_trainset : Trainset :=
  { base_trainset "TS-U" with job_cards := [open_p1_card "TS-U"] }

/-- A valid telecom certificate with expiry far in the future of instant 0. -/
def telecom_cert : FitnessCertificate :=
  { certificate_type := CertificateType.telecom
    issue_date := -10
    expiry_date := 100
    is_valid := true
    issuing_department := "Telecom" }

/-- A service-ready trainset holding one valid telecom certificate. -/
def telecom_trainset : Trainset :=
  { base_trainset "TS-T" with fitness_certificates := [telecom_cert] }

/-!  Helper lemmas about the stable descending sort. -/

theorem insert_by_score_perm (x : Trainset × ℚ) (l : List (Trainset × ℚ)) :
    insert_by_score x l ~ x :: l := by
  induction l with
  | nil => rfl
  | cons y ys ih =>
    rw [insert_by_score]
    split
    · exact (ih.cons y).trans (List.Perm.swap x y ys)
    · rfl

theorem sort_by_score_desc_perm (l : List (Trainset × ℚ)) :
    sort_by_score_desc l ~ l := by
  induction l with
  | nil => rfl
  | cons x xs ih => exact (insert_by_score_perm x _).trans (ih.cons x)

theorem insert_by_score_pairwise {x : Trainset × ℚ} {l : List (Trainset × ℚ)}
    (h : l.Pairwise fun p q => q.2 ≤ p.2) :
    (insert_by_score x l).Pairwise fun p q => q.2 ≤ p.2 := by
  induction l with
  | nil => simp [insert_by_score]
  | cons y ys ih =>
    rw [List.pairwise_cons] at h
    rw [insert_by_score]
    split
    · rename_i hlt
      refine List.Pairwise.cons ?_ (ih h.2)
      intro z hz
      rcases List.mem_cons.mp ((insert_by_score_perm x ys).mem_iff.mp hz) with rfl | hz'
      · exact le_of_lt hlt
      · exact h.1 z hz'
    · rename_i hge
      push_neg at hge
      refine List.Pairwise.cons ?_ (List.Pairwise.cons h.1 h.2)
      intro z hz
      rcases List.mem_cons.mp hz with rfl | hz'
      · exact hge
      · exact le_trans (h.1 z hz') hge

theorem sort_by_score_desc_pairwise (l : List (Trainset × ℚ)) :
    (sort_by_score_desc l).Pairwise fun p q => q.2 ≤ p.2 := by
  induction l with
  | nil => simp [sort_by_score_desc]
  | cons x xs ih => exact insert_by_score_pairwise ih

theorem insert_by_score_filter_of_ne {x : Trainset × ℚ} {s : ℚ} (hx : x.2 ≠ s)
    (l : List (Trainset × ℚ)) :
    (insert_by_score x l).filter (fun p => decide (p.2 = s))
      = l.filter fun p => decide (p.2 = s) := by
  induction l with
  | nil => simp [insert_by_score, hx]
  | cons y ys ih =>
    rw [insert_by_score]
    split
    · simp only [List.filter_cons, ih]
    · simp only [List.filter_cons]
      simp [hx]

theorem insert_by_score_filter_of_eq {x : Trainset × ℚ} {s : ℚ} (hx : x.2 = s)
    (l : List (Trainset × ℚ)) :
    (insert_by_score x l).filter (fun p => decide (p.2 = s))
      = x :: l.filter fun p => decide (p.2 = s) := by
  induction l with
  | nil => simp [insert_by_score, hx]
  | cons y ys ih =>
    rw [insert_by_score]
    split
    · rename_i hlt
      have hy : y.2 ≠ s := by
        intro h
        rw [← hx] at h
        rw [h] at hlt
        exact lt_irrefl _ hlt
      simp [List.filter_cons, hy, ih]
    · simp [List.filter_cons, hx]

theorem sort_by_score_desc_filter (s : ℚ) (l : List (Trainset × ℚ)) :
    (sort_by_score_desc l).filter (fun p => decide (p.2 = s))
      = l.filter fun p => decide (p.2 = s) := by
  induction l with
  | nil => rfl
  | cons x xs ih =>
    by_cases hx : x.2 = s
    · rw [sort_by_score_desc, insert_by_score_filter_of_eq hx, ih, List.filter_cons]
      simp [hx]
    · rw [sort_by_score_desc, insert_by_score_filter_of_ne hx, ih, List.filter_cons]
      simp [hx]

/-!  Helper lemmas about the allocation walk. -/

theorem make_decision_id (now : ℤ) (t : Trainset) (score : ℚ) (a b : ℕ) (dm : ℤ) :
    (make_allocation_decision now t score a b dm).trainset_id = t.trainset_id := by
  rw [make_allocation_decision]
  split
  · rfl
  split <;> rfl

theorem make_decision_score (now : ℤ) (t : Trainset) (score : ℚ) (a b : ℕ) (dm : ℤ) :
    (make_allocation_decision now t score a b dm).priority_score = score := by
  rw [make_allocation_decision]
  split
  · rfl
  split <;> rfl

theorem make_decision_unready {now : ℤ} {t : Trainset} (score : ℚ) (a b : ℕ) (dm : ℤ)
    (h : is_service_ready now t = false) :
    (make_allocation_decision now t score a b dm).recommended_status
      = TrainsetStatus.maintenance := by
  rw [make_allocation_decision, if_pos]
  simp [h]

theorem make_decision_ready_lt {now : ℤ} {t : Trainset} (score : ℚ) {a : ℕ} (b : ℕ)
    {dm : ℤ} (h : is_service_ready now t = true) (hlt : (a : ℤ) < dm) :
    (make_allocation_decision now t score a b dm).recommended_status
      = TrainsetStatus.revenue_service := by
  rw [make_allocation_decision, if_neg, if_pos hlt]
  simp [h]

theorem make_decision_ready_ge {now : ℤ} {t : Trainset} (score : ℚ) {a : ℕ} (b : ℕ)
    {dm : ℤ} (h : is_service_ready now t = true) (hge : ¬ ((a : ℤ) < dm)) :
    (make_allocation_decision now t score a b dm).recommended_status
      = TrainsetStatus.standby := by
  rw [make_allocation_decision, if_neg, if_neg hge]
  simp [h]

theorem allocate_loop_map_id_score (now dm : ℤ) (l : List (Trainset × ℚ)) (a b : ℕ) :
    (allocate_loop now dm l a b).map (fun d => (d.trainset_id, d.priority_score))
      = l.map fun p => (p.1.trainset_id, p.2) := by
  induction l generalizing a b with
  | nil => rfl
  | cons p rest ih =>
    simp only [allocate_loop, List.map_cons, make_decision_id, make_decision_score, ih]

theorem allocate_loop_mem {now dm : ℤ} {l : List (Trainset × ℚ)} {a b : ℕ}
    {dec : InductionDecision} (h : dec ∈ allocate_loop now dm l a b) :
    ∃ p ∈ l, dec.trainset_id = p.1.trainset_id ∧
      (is_service_ready now p.1 = false →
        dec.recommended_status = TrainsetStatus.maintenance) ∧
      (is_service_ready now p.1 = true →
        dec.recommended_status = TrainsetStatus.revenue_service ∨
        dec.recommended_status = TrainsetStatus.standby) := by
  induction l generalizing a b with
  | nil => cases h
  | cons p rest ih =>
    rw [allocate_loop] at h
    rcases List.mem_cons.mp h with rfl | h'
    · refine ⟨p, List.mem_cons_self p rest, make_decision_id now p.1 p.2 a b dm, ?_, ?_⟩
      · intro hun
        exact make_decision_unready p.2 a b dm hun
      · intro hr
        by_cases hlt : (a : ℤ) < dm
        · exact Or.inl (make_decision_ready_lt p.2 b hr hlt)
        · exact Or.inr (make_decision_ready_ge p.2 b hr hlt)
    · obtain ⟨q, hq, hrest⟩ := ih h'
      exact ⟨q, List.mem_cons_of_mem p hq, hrest⟩

theorem allocate_loop_cons (now dm : ℤ) (p : Trainset × ℚ)
    (rest : List (Trainset × ℚ)) (a b : ℕ) :
    allocate_loop now dm (p :: rest) a b
      = make_allocation_decision now p.1 p.2 a b dm ::
        allocate_loop now dm rest
          (if (make_allocation_decision now p.1 p.2 a b dm).recommended_status
              = TrainsetStatus.revenue_service then a + 1 else a)
          (if (make_allocation_decision now p.1 p.2 a b dm).recommended_status
              = TrainsetStatus.standby then b + 1 else b) := rfl

theorem allocate_loop_service_count (now dm : ℤ) (l : List (Trainset × ℚ)) (a b : ℕ) :
    (allocate_loop now dm l a b).countP
        (fun d => decide (d.recommended_status = TrainsetStatus.revenue_service))
      = min (dm - a).toNat (l.countP fun p => is_service_ready now p.1) := by
  induction l generalizing a b with
  | nil => simp [allocate_loop]
  | cons p rest ih =>
    rw [allocate_loop_cons]
    by_cases hr : is_service_ready now p.1 = true
    · by_cases hlt : (a : ℤ) < dm
      · have hst := make_decision_ready_lt p.2 b hr hlt
        simp only [List.countP_cons, hst, hr, ih]
        simp only [decide_eq_true_eq]
        simp only [reduceCtorEq, if_true, if_false, if_pos]
        omega
      · have hst := make_decision_ready_ge p.2 b hr hlt
        simp only [List.countP_cons, hst, hr, ih]
        simp only [decide_eq_true_eq]
        simp only [reduceCtorEq, if_true, if_false, if_neg]
        omega
    · have hr' : is_service_ready now p.1 = false := by
        revert hr
        cases is_service_ready now p.1 <;> simp
      have hst := make_decision_unready p.2 a b dm hr'
      simp only [List.countP_cons, hst, hr', ih]
      simp only [decide_eq_true_eq]
      simp only [reduceCtorEq, if_true, if_false]
      omega

theorem allocate_loop_service_ids_of_ready (now dm : ℤ) {l : List (Trainset × ℚ)}
    (a b : ℕ) (h : ∀ p ∈ l, is_service_ready now p.1 = true) :
    ((allocate_loop now dm l a b).filter
        (fun d => decide (d.recommended_status = TrainsetStatus.revenue_service))).map
        (fun d => d.trainset_id)
      = (l.take (dm - a).toNat).map fun p => p.1.trainset_id := by
  induction l generalizing a b with
  | nil => simp [allocate_loop]
  | cons p rest ih =>
    have hp := h p (List.mem_cons_self p rest)
    have hrest : ∀ q ∈ rest, is_service_ready now q.1 = true :=
      fun q hq => h q (List.mem_cons_of_mem p hq)
    rw [allocate_loop_cons]
    by_cases hlt : (a : ℤ) < dm
    · have hst := make_decision_ready_lt p.2 b hp hlt
      have h1 : (dm - (a : ℤ)).toNat = (dm - ((a + 1 : ℕ) : ℤ)).toNat + 1 := by
        push_cast
        omega
      rw [h1, List.take_succ_cons, List.map_cons]
      simp only [List.filter_cons, hst, make_decision_id, reduceCtorEq,
        decide_eq_true_eq, if_true, if_false, if_pos, List.map_cons]
      rw [ih _ _ hrest]
    · have hst := make_decision_ready_ge p.2 b hp hlt
      have h0 : (dm - (a : ℤ)).toNat = 0 := by omega
      rw [h0, List.take_zero, List.map_nil]
      simp only [List.filter_cons, hst, reduceCtorEq, decide_eq_true_eq,
        if_true, if_false]
      rw [ih _ _ hrest, h0, List.take_zero, List.map_nil]

/-!  Linking the Option-valued scorer to its total-division companion. -/

theorem calc_composite_eq_total {now : ℤ} {t : Trainset} (h : branding_ok t) :
    calc_composite_score now t = some (composite_score_total now t) := by
  cases hc : t.branding_contract with
  | none =>
      simp [calc_composite_score, composite_score_total, branding_score,
        branding_score_total, hc]
  | some c =>
      have h' : c.required_exposure_hours ≠ 0 := by
        unfold branding_ok at h
        rw [hc] at h
        exact h
      simp [calc_composite_score, composite_score_total, branding_score,
        branding_score_total, hc, h']

theorem score_all_eq_scored_input {now : ℤ} {vs : List Trainset}
    (h : ∀ t ∈ vs, branding_ok t) :
    score_all now vs = some (scored_input now vs) := by
  induction vs with
  | nil => rfl
  | cons t ts ih =>
      rw [score_all, calc_composite_eq_total (h t (List.mem_cons_self t ts)),
        ih fun u hu => h u (List.mem_cons_of_mem t hu)]
      rfl

theorem score_all_mem {now : ℤ} {vs : List Trainset} {scored : List (Trainset × ℚ)}
    (h : score_all now vs = some scored) : ∀ q ∈ scored, q.1 ∈ vs := by
  induction vs generalizing scored with
  | nil =>
      rw [score_all] at h
      cases h
      simp
  | cons t ts ih =>
      cases hc : calc_composite_score now t with
      | none =>
          rw [score_all, hc] at h
          simp at h
      | some s =>
          cases hs : score_all now ts with
          | none =>
              rw [score_all, hc, hs] at h
              simp at h
          | some rest =>
              rw [score_all, hc, hs] at h
              simp only [Option.some.injEq] at h
              subst h
              intro q hq
              rcases List.mem_cons.mp hq with rfl | hq'
              · exact List.mem_cons_self t ts
              · exact List.mem_cons_of_mem t (ih hs q hq')

theorem optimize_eq_of_ok {now : ℤ} {vs : List Trainset}
    (h : ∀ t ∈ vs, branding_ok t) (dm : ℤ) :
    optimize_induction now vs dm
      = some (allocate_loop now dm (ranked now vs) 0 0) := by
  rw [optimize_induction, score_all_eq_scored_input h]
  rfl

theorem ranked_countP_ready (now : ℤ) (vs : List Trainset) :
    ((ranked now vs).countP fun p => is_service_ready now p.1)
      = vs.countP fun t => is_service_ready now t := by
  rw [ranked, (sort_by_score_desc_perm _).countP_eq, scored_input, List.countP_map]
  rfl

/-- C1 (amended): for every vehicle list with unique ids in which no branding
contract has zero required exposure hours, and every integer service demand,
the allocation policy completes without error and assigns revenue service to
exactly min(service_demand, number of service-ready vehicles) vehicles, with
negative demand acting like zero; every vehicle that is not service-ready is
assigned maintenance regardless of demand, and every remaining service-ready
vehicle gets revenue service or standby. -/
theorem c1_allocation_quota (now : ℤ) (vs : List Trainset) (service_demand : ℤ)
    (hok : ∀ t ∈ vs, branding_ok t)
    (hids : (vs.map fun t => t.trainset_id).Nodup) :
    ∃ ds, optimize_induction now vs service_demand = some ds ∧
      ds.countP (fun d => decide (d.recommended_status = TrainsetStatus.revenue_service))
        = min service_demand.toNat (vs.countP fun t => is_service_ready now t) ∧
      ∀ t ∈ vs, ∀ dec ∈ ds, dec.trainset_id = t.trainset_id →
        (is_service_ready now t = false →
          dec.recommended_status = TrainsetStatus.maintenance) ∧
        (is_service_ready now t = true →
          dec.recommended_status = TrainsetStatus.revenue_service ∨
          dec.recommended_status = TrainsetStatus.standby) := by
  refine ⟨_, optimize_eq_of_ok hok service_demand, ?_, ?_⟩
  · rw [allocate_loop_service_count, ranked_countP_ready]
    congr 1
    omega
  · intro t ht dec hdec hid
    obtain ⟨p, hp, hpid, hun, hrd⟩ := allocate_loop_mem hdec
    have hp' : p ∈ scored_input now vs :=
      (sort_by_score_desc_perm _).mem_iff.mp hp
    rw [scored_input, List.mem_map] at hp'
    obtain ⟨u, hu, rfl⟩ := hp'
    have hut : u = t :=
      List.inj_on_of_nodup_map hids hu ht (by rw [← hpid, hid])
    subst hut
    exact ⟨hun, hrd⟩

/-- Witness for C1 at a two-vehicle fleet with demand 1. -/
theorem c1_allocation_quota_witness :
    (∀ t ∈ [unready_trainset, base_trainset "TS-R"], branding_ok t) ∧
    (∃ ds, optimize_induction 0 [unready_trainset, base_trainset "TS-R"] 1 = some ds ∧
      ds.countP (fun d => decide (d.recommended_status = TrainsetStatus.revenue_service))
        = min (1 : ℤ).toNat
            ([unready_trainset, base_trainset "TS-R"].countP fun t => is_service_ready 0 t) ∧
      ∀ t ∈ [unready_trainset, base_trainset "TS-R"], ∀ dec ∈ ds,
        dec.trainset_id = t.trainset_id →
          (is_service_ready 0 t = false →
            dec.recommended_status = TrainsetStatus.maintenance) ∧
          (is_service_ready 0 t = true →
            dec.recommended_status = TrainsetStatus.revenue_service ∨
            dec.recommended_status = TrainsetStatus.standby)) :=
  ⟨by decide, c1_allocation_quota 0 [unready_trainset, base_trainset "TS-R"] 1
    (by decide) (by decide)⟩

/-- Counterexample to C1 as stated: a service-ready vehicle whose branding
contract has zero required exposure hours makes the policy raise
ZeroDivisionError (embedded as none), so with demand 5 nothing is assigned at
all even though min(demand, ready count) = 1 vehicle should have received
revenue service and no error should have been raised. -/
theorem c1_allocation_quota_cx :
    optimize_induction 0 [zero_required_trainset] 5 = none ∧
    is_service_ready 0 zero_required_trainset = true ∧
    min (5 : ℤ).toNat ([zero_required_trainset].countP fun t => is_service_ready 0 t)
      = 1 := by
  refine ⟨by decide, by decide, by decide⟩

/-- C2: a vehicle is service-ready iff every attached certificate has validity
flag true and expiry strictly after the evaluation instant, and no open job
card of priority at most 2 exists; a vehicle with zero certificates satisfies
the certificate clause vacuously. -/
theorem c2_service_ready_iff (now : ℤ) (t : Trainset) :
    is_service_ready now t = true ↔
      ((∀ c ∈ t.fitness_certificates, c.is_valid = true ∧ now < c.expiry_date) ∧
       ¬ ∃ jc ∈ t.job_cards, jc.status = JobCardStatus.open_ ∧ jc.priority ≤ 2) := by
  rw [is_service_ready]
  simp [List.all_eq_true, List.any_eq_true, not_exists]

/-- C3 (amended): the composite scorer returns a number for every vehicle
whose branding contract, when present, has nonzero required exposure hours,
and an absent branding contract, maintenance date or stabling bay each yields
the default sub-score 0.5. -/
theorem c3_scorer_defaults (now : ℤ) (t : Trainset) (hok : branding_ok t) :
    (∃ r : ℚ, calc_composite_score now t = some r) ∧
    (t.branding_contract = none → branding_score t = some (1/2)) ∧
    (t.last_maintenance_date = none → maintenance_score now t = 1/2) ∧
    (t.stabling_bay = none → stabling_score t = 1/2) := by
  refine ⟨⟨_, calc_composite_eq_total hok⟩, ?_, ?_, ?_⟩
  · intro h
    simp [branding_score, h]
  · intro h
    simp [maintenance_score, h]
  · intro h
    simp [stabling_score, h]

/-- Witness for C3 at a vehicle with every optional field absent. -/
theorem c3_scorer_defaults_witness :
    branding_ok (base_trainset "TS-W") ∧
    ((∃ r : ℚ, calc_composite_score 0 (base_trainset "TS-W") = some r) ∧
     ((base_trainset "TS-W").branding_contract = none →
        branding_score (base_trainset "TS-W") = some (1/2)) ∧
     ((base_trainset "TS-W").last_maintenance_date = none →
        maintenance_score 0 (base_trainset "TS-W") = 1/2) ∧
     ((base_trainset "TS-W").stabling_bay = none →
        stabling_score (base_trainset "TS-W") = 1/2)) :=
  ⟨by decide, c3_scorer_defaults 0 (base_trainset "TS-W") (by decide)⟩

/-- Counterexample to C3 as stated: on a vehicle whose branding contract has
required exposure hours equal to zero the scorer does not return a number; the
Python source raises ZeroDivisionError at the exposure division. -/
theorem c3_scorer_defaults_cx :
    calc_composite_score 0 zero_required_trainset = none := by
  decide

/-- C7 (amended): a vehicle with a nonzero stabling bay assigned scores
max(0, 1 - bay/total_fleet_size); a vehicle without a bay scores 0.5; and a
vehicle with bay number 0 also scores 0.5, because the source guards the
formula with Python truthiness rather than a None test. -/
theorem c7_stabling_formula (t : Trainset) :
    (∀ b : ℤ, t.stabling_bay = some b → b ≠ 0 →
      stabling_score t = max 0 (1 - (b : ℚ) / get_total_trainsets)) ∧
    (t.stabling_bay = none → stabling_score t = 1/2) ∧
    (t.stabling_bay = some 0 → stabling_score t = 1/2) := by
  refine ⟨?_, ?_, ?_⟩
  · intro b hb hnz
    simp [stabling_score, hb, hnz]
  · intro h
    simp [stabling_score, h]
  · intro h
    simp [stabling_score, h]

/-- A trainset stabled in bay 3. -/
def bay3_trainset : Trainset := { base_trainset "TS-B3" with stabling_bay := some 3 }

/-- A trainset stabled in bay 0. -/
def bay0_trainset : Trainset := { base_trainset "TS-B0" with stabling_bay := some 0 }

/-- Witness for C7 at a vehicle stabled in bay 3. -/
theorem c7_stabling_formula_witness :
    bay3_trainset.stabling_bay = some 3 ∧ (3 : ℤ) ≠ 0 ∧
    stabling_score bay3_trainset = max 0 (1 - ((3 : ℤ) : ℚ) / get_total_trainsets) :=
  ⟨rfl, by decide, (c7_stabling_formula bay3_trainset).1 3 rfl (by decide)⟩

/-- Counterexample to C7 as stated: bay 0 scores the 0.5 default, not
max(0, 1 - 0/total_fleet_size) = 1. -/
theorem c7_stabling_formula_cx :
    stabling_score bay0_trainset = 1/2 ∧
    stabling_score bay0_trainset ≠ max 0 (1 - ((0 : ℤ) : ℚ) / get_total_trainsets) := by
  constructor
  · simp [stabling_score, bay0_trainset, base_trainset]
  · simp [stabling_score, bay0_trainset, base_trainset, get_total_trainsets]

/-- C4 (amended): on a fleet of service-ready vehicles with unique scores or
not, no zero-required-exposure branding contract, and demand d at most the
fleet size, the vehicles receiving revenue service are exactly the first d of
the stable descending sort: that sort is a permutation of the scored input,
is sorted descending, every serviced vehicle scores at least every unserviced
one, and ties keep input order (the per-score slices of the sorted list equal
the per-score slices of the input). -/
theorem c4_top_scores (now : ℤ) (vs : List Trainset) (d : ℕ)
    (hok : ∀ t ∈ vs, branding_ok t)
    (hready : ∀ t ∈ vs, is_service_ready now t = true)
    (hd : d ≤ vs.length) :
    ∃ ds, optimize_induction now vs (d : ℤ) = some ds ∧
      ((ds.filter fun dec =>
          decide (dec.recommended_status = TrainsetStatus.revenue_service)).map
          fun dec => dec.trainset_id)
        = ((ranked now vs).take d).map (fun p => p.1.trainset_id) ∧
      (ranked now vs) ~ scored_input now vs ∧
      List.Pairwise (fun p q => q.2 ≤ p.2) (ranked now vs) ∧
      (∀ p ∈ (ranked now vs).take d, ∀ q ∈ (ranked now vs).drop d, q.2 ≤ p.2) ∧
      (∀ s : ℚ, ((ranked now vs).filter fun p => decide (p.2 = s))
          = (scored_input now vs).filter fun p => decide (p.2 = s)) := by
  refine ⟨_, optimize_eq_of_ok hok (d : ℤ), ?_, sort_by_score_desc_perm _,
    sort_by_score_desc_pairwise _, ?_, fun s => sort_by_score_desc_filter s _⟩
  · have hready' : ∀ p ∈ ranked now vs, is_service_ready now p.1 = true := by
      intro p hp
      have hp' := (sort_by_score_desc_perm _).mem_iff.mp hp
      rw [scored_input, List.mem_map] at hp'
      obtain ⟨u, hu, rfl⟩ := hp'
      exact hready u hu
    rw [allocate_loop_service_ids_of_ready now (d : ℤ) 0 0 hready']
    congr 2
  · intro p hp q hq
    have hpw : List.Pairwise (fun p q : Trainset × ℚ => q.2 ≤ p.2)
        ((ranked now vs).take d ++ (ranked now vs).drop d) := by
      rw [List.take_append_drop]
      exact sort_by_score_desc_pairwise _
    exact (List.pairwise_append.mp hpw).2.2 p hp q hq

/-- Witness for C4 on a two-vehicle all-ready fleet with demand 1. -/
theorem c4_top_scores_witness :
    (∀ t ∈ [base_trainset "TS-A", base_trainset "TS-B"], is_service_ready 0 t = true) ∧
    (∃ ds, optimize_induction 0 [base_trainset "TS-A", base_trainset "TS-B"]
          ((1 : ℕ) : ℤ) = some ds ∧
      ((ds.filter fun dec =>
          decide (dec.recommended_status = TrainsetStatus.revenue_service)).map
          fun dec => dec.trainset_id)
        = ((ranked 0 [base_trainset "TS-A", base_trainset "TS-B"]).take 1).map
            (fun p => p.1.trainset_id) ∧
      (ranked 0 [base_trainset "TS-A", base_trainset "TS-B"])
        ~ scored_input 0 [base_trainset "TS-A", base_trainset "TS-B"] ∧
      List.Pairwise (fun p q => q.2 ≤ p.2)
        (ranked 0 [base_trainset "TS-A", base_trainset "TS-B"]) ∧
      (∀ p ∈ (ranked 0 [base_trainset "TS-A", base_trainset "TS-B"]).take 1,
        ∀ q ∈ (ranked 0 [base_trainset "TS-A", base_trainset "TS-B"]).drop 1,
          q.2 ≤ p.2) ∧
      (∀ s : ℚ, ((ranked 0 [base_trainset "TS-A", base_trainset "TS-B"]).filter
            fun p => decide (p.2 = s))
          = (scored_input 0 [base_trainset "TS-A", base_trainset "TS-B"]).filter
              fun p => decide (p.2 = s))) :=
  ⟨by decide, c4_top_scores 0 [base_trainset "TS-A", base_trainset "TS-B"] 1
    (by decide) (by decide) (by decide)⟩

/-- Counterexample to C4 as stated: a one-vehicle fleet that is entirely
service-ready with demand 1 should give revenue service to its single
highest-scoring vehicle, but the zero-required-exposure branding contract
makes the policy raise instead of returning any decisions. -/
theorem c4_top_scores_cx :
    is_service_ready 0 zero_required_trainset = true ∧
    (1 : ℕ) ≤ [zero_required_trainset].length ∧
    optimize_induction 0 [zero_required_trainset] ((1 : ℕ) : ℤ) = none :=
  ⟨by decide, by decide, by decide⟩

/-- C5 (amended): when no branding contract has zero required exposure hours,
one allocation run returns exactly one decision per input vehicle (the decision
ids are a permutation of the input ids), and the decisions come in the stable
score-sorted order: their (id, score) sequence equals that of the sorted
scored list, and their scores are descending. -/
theorem c5_one_decision_per_vehicle (now : ℤ) (vs : List Trainset)
    (service_demand : ℤ) (hok : ∀ t ∈ vs, branding_ok t) :
    ∃ ds, optimize_induction now vs service_demand = some ds ∧
      (ds.map fun dec => dec.trainset_id) ~ (vs.map fun t => t.trainset_id) ∧
      (ds.map fun dec => (dec.trainset_id, dec.priority_score))
        = (ranked now vs).map (fun p => (p.1.trainset_id, p.2)) ∧
      List.Pairwise (fun a b : ℚ => b ≤ a)
        (ds.map fun dec => dec.priority_score) := by
  refine ⟨_, optimize_eq_of_ok hok service_demand, ?_, ?_, ?_⟩
  · have h2 := allocate_loop_map_id_score now service_demand (ranked now vs) 0 0
    have hids := congrArg (List.map Prod.fst) h2
    simp only [List.map_map] at hids
    have hmap : (scored_input now vs).map
        ((fun p : String × ℚ => p.1) ∘ fun p : Trainset × ℚ => (p.1.trainset_id, p.2))
        = vs.map fun t => t.trainset_id := by
      rw [scored_input, List.map_map]
      rfl
    calc (allocate_loop now service_demand (ranked now vs) 0 0).map
            (fun dec => dec.trainset_id)
        = (ranked now vs).map
            ((fun p : String × ℚ => p.1) ∘ fun p : Trainset × ℚ => (p.1.trainset_id, p.2)) := hids
      _ ~ (scored_input now vs).map
            ((fun p : String × ℚ => p.1) ∘ fun p : Trainset × ℚ => (p.1.trainset_id, p.2)) :=
            (sort_by_score_desc_perm _).map _
      _ = vs.map fun t => t.trainset_id := hmap
  · exact allocate_loop_map_id_score now service_demand (ranked now vs) 0 0
  · have h2 := allocate_loop_map_id_score now service_demand (ranked now vs) 0 0
    have hsc := congrArg (List.map Prod.snd) h2
    simp only [List.map_map] at hsc
    rw [show ((fun p : String × ℚ => p.2) ∘
        fun dec : InductionDecision => (dec.trainset_id, dec.priority_score))
        = fun dec : InductionDecision => dec.priority_score from rfl] at hsc
    rw [hsc, List.pairwise_map]
    exact sort_by_score_desc_pairwise _

/-- Witness for C5 on a two-vehicle fleet with one not-ready vehicle. -/
theorem c5_one_decision_per_vehicle_witness :
    (∀ t ∈ [base_trainset "TS-A", unready_trainset], branding_ok t) ∧
    (∃ ds, optimize_induction 0 [base_trainset "TS-A", unready_trainset] 20 = some ds ∧
      (ds.map fun dec => dec.trainset_id)
        ~ ([base_trainset "TS-A", unready_trainset].map fun t => t.trainset_id) ∧
      (ds.map fun dec => (dec.trainset_id, dec.priority_score))
        = (ranked 0 [base_trainset "TS-A", unready_trainset]).map
            (fun p => (p.1.trainset_id, p.2)) ∧
      List.Pairwise (fun a b : ℚ => b ≤ a)
        (ds.map fun dec => dec.priority_score)) :=
  ⟨by decide, c5_one_decision_per_vehicle 0 [base_trainset "TS-A", unready_trainset]
    20 (by decide)⟩

/-- Counterexample to C5 as stated: with a zero-required-exposure branding
contract in the fleet the run returns no decision sequence at all, so it does
not contain one decision for the input vehicle. -/
theorem c5_one_decision_per_vehicle_cx :
    optimize_induction 0 [zero_required_trainset] 20 = none ∧
    [zero_required_trainset].length = 1 :=
  ⟨by decide, by decide⟩

/-!  Helper lemmas for the certificate-expiry scenario. -/

theorem cert_expiry_mem {now : ℤ} {vs : List Trainset} {parameters : ScenarioParams}
    {t' : Trainset} (h : t' ∈ simulate_certificate_expiry now vs parameters) :
    ∃ t ∈ vs, t'.trainset_id = t.trainset_id ∧
      (t.trainset_id ∈ parameters.trainset_ids →
        (∃ c ∈ t.fitness_certificates,
            c.certificate_type = parameters.certificate_type) →
        is_service_ready now t' = false) := by
  rw [simulate_certificate_expiry, List.mem_map] at h
  obtain ⟨t, ht, rfl⟩ := h
  by_cases hl : t.trainset_id ∈ parameters.trainset_ids
  · rw [if_pos hl]
    refine ⟨t, ht, rfl, ?_⟩
    rintro _ ⟨c, hc, hct⟩
    have hmem : ({ c with is_valid := false, expiry_date := now - 1 } : FitnessCertificate)
        ∈ t.fitness_certificates.map fun c =>
            if c.certificate_type = parameters.certificate_type then
              { c with is_valid := false, expiry_date := now - 1 }
            else c := by
      have hmm := List.mem_map_of_mem (fun c : FitnessCertificate =>
        if c.certificate_type = parameters.certificate_type then
          { c with is_valid := false, expiry_date := now - 1 }
        else c) hc
      simpa [hct] using hmm
    rw [is_service_ready]
    have hall : ((t.fitness_certificates.map fun c =>
        if c.certificate_type = parameters.certificate_type then
          { c with is_valid := false, expiry_date := now - 1 }
        else c).all fun c => c.is_valid && decide (now < c.expiry_date)) = false :=
      List.all_eq_false.mpr ⟨_, hmem, by simp⟩
    simp [hall]
  · rw [if_neg hl]
    exact ⟨t, ht, rfl, fun hl' => absurd hl' hl⟩

/-- C6 (amended): for every vehicle whose id is listed in a certificate_expiry
scenario with category telecom and which carries at least one telecom
certificate, re-running the allocation policy on the perturbed set never
assigns that vehicle revenue service (its readiness is now false), even if
the baseline assigned it revenue service, and regardless of what certificates
the other listed vehicles carry.  A listed vehicle with no telecom certificate
is untouched by the perturbation and may still be serviced.  Vehicle ids are
unique per the data model. -/
theorem c6_cert_expiry_blocks_service (now : ℤ) (vs : List Trainset)
    (parameters : ScenarioParams)
    (hct : parameters.certificate_type = CertificateType.telecom)
    (hids : (vs.map fun t => t.trainset_id).Nodup)
    (t : Trainset) (ht : t ∈ vs)
    (hlisted : t.trainset_id ∈ parameters.trainset_ids)
    (hcert : ∃ c ∈ t.fitness_certificates,
      c.certificate_type = CertificateType.telecom) :
    ∀ dec ∈ (scenario_run now vs "certificate_expiry" parameters).elim []
        (fun res => res.scenario_decisions),
      dec.trainset_id = t.trainset_id →
        dec.recommended_status ≠ TrainsetStatus.revenue_service := by
  intro dec hdec hdid
  cases hb : optimize_induction now vs 20 with
  | none =>
      rw [scenario_run, hb] at hdec
      simp at hdec
  | some bds =>
      cases hsc : optimize_induction now
          (perturb now "certificate_expiry" vs parameters) 20 with
      | none =>
          rw [scenario_run, hb, hsc] at hdec
          simp at hdec
      | some sds =>
          rw [scenario_run, hb, hsc] at hdec
          simp only [Option.elim] at hdec
          have hpert : perturb now "certificate_expiry" vs parameters
              = simulate_certificate_expiry now vs parameters := by
            rw [perturb, if_pos rfl]
          rw [hpert, optimize_induction] at hsc
          cases hsa : score_all now (simulate_certificate_expiry now vs parameters) with
          | none =>
              rw [hsa] at hsc
              simp at hsc
          | some scored =>
              rw [hsa] at hsc
              simp only [Option.some.injEq] at hsc
              subst hsc
              obtain ⟨p, hp, hpid, hun, _⟩ := allocate_loop_mem hdec
              have hp' : p ∈ scored := (sort_by_score_desc_perm _).mem_iff.mp hp
              have hpin : p.1 ∈ simulate_certificate_expiry now vs parameters :=
                score_all_mem hsa p hp'
              obtain ⟨u, hu, huid, himpl⟩ := cert_expiry_mem hpin
              have hut : u = t := by
                refine List.inj_on_of_nodup_map hids hu ht ?_
                rw [← huid, ← hpid, hdid]
              subst hut
              have hready_false : is_service_ready now p.1 = false := by
                refine himpl hlisted ?_
                rw [hct]
                exact hcert
              rw [hun hready_false]
              simp

/-- Parameters listing both vehicles of the mixed witness fleet. -/
def c6_mixed_params : ScenarioParams := { trainset_ids := ["TS-T", "TS-N"] }

/-- Witness for C6 on a mixed fleet: both vehicles are listed but only one
carries a telecom certificate; the theorem applies to the certified vehicle
regardless of the uncertified one. -/
theorem c6_cert_expiry_blocks_service_witness :
    c6_mixed_params.certificate_type = CertificateType.telecom ∧
    telecom_trainset.trainset_id ∈ c6_mixed_params.trainset_ids ∧
    (∃ c ∈ telecom_trainset.fitness_certificates,
      c.certificate_type = CertificateType.telecom) ∧
    (∀ dec ∈ (scenario_run 0 [telecom_trainset, base_trainset "TS-N"]
          "certificate_expiry" c6_mixed_params).elim []
        (fun res => res.scenario_decisions),
      dec.trainset_id = telecom_trainset.trainset_id →
        dec.recommended_status ≠ TrainsetStatus.revenue_service) :=
  ⟨rfl, by decide, by decide,
    c6_cert_expiry_blocks_service 0 [telecom_trainset, base_trainset "TS-N"]
      c6_mixed_params rfl (by decide) telecom_trainset
      (List.mem_cons_self telecom_trainset [base_trainset "TS-N"])
      (by decide) (by decide)⟩

/-- Parameters listing a vehicle that has no telecom certificate. -/
def c6_cx_params : ScenarioParams := { trainset_ids := ["TS-N"] }

/-- Counterexample to C6 as stated: a listed vehicle carrying no telecom
certificate is untouched by the certificate_expiry perturbation, stays
service-ready, and is assigned revenue service by the scenario re-run. -/
theorem c6_cert_expiry_blocks_service_cx :
    (base_trainset "TS-N").fitness_certificates = [] ∧
    "TS-N" ∈ c6_cx_params.trainset_ids ∧
    ((scenario_run 0 [base_trainset "TS-N"] "certificate_expiry" c6_cx_params).elim []
        (fun res => res.scenario_decisions)).map
        (fun dec => (dec.trainset_id, dec.recommended_status))
      = [("TS-N", TrainsetStatus.revenue_service)] :=
  ⟨rfl, by decide, by decide⟩

/-- Scenario parameters with every key left to its default. -/
def default_params : ScenarioParams := {}

/-- C9: the engine raises nothing for normal business variation: an empty
vehicle list yields an empty decision sequence for any demand; a demand of at
most zero never assigns revenue service; and a scenario kind outside the five
registered ones is routed to the generic custom mutator instead of erroring. -/
theorem c9_error_handling :
    (∀ now demand : ℤ, optimize_induction now [] demand = some []) ∧
    (∀ (now demand : ℤ) (vs : List Trainset) (ds : List InductionDecision),
      demand ≤ 0 → optimize_induction now vs demand = some ds →
      ∀ dec ∈ ds, dec.recommended_status ≠ TrainsetStatus.revenue_service) ∧
    (∀ (now : ℤ) (vs : List Trainset) (kind : String) (parameters : ScenarioParams),
      kind ∉ builtin_kinds →
      perturb now kind vs parameters = apply_custom_changes vs parameters) := by
  refine ⟨fun now demand => rfl, ?_, ?_⟩
  · intro now demand vs ds hdm hopt dec hdec
    rw [optimize_induction] at hopt
    cases hsa : score_all now vs with
    | none =>
        rw [hsa] at hopt
        simp at hopt
    | some scored =>
        rw [hsa] at hopt
        simp only [Option.some.injEq] at hopt
        subst hopt
        have hc := allocate_loop_service_count now demand (sort_by_score_desc scored) 0 0
        have h0 : (demand - ((0 : ℕ) : ℤ)).toNat = 0 := by omega
        rw [h0] at hc
        simp only [Nat.zero_min] at hc
        have hnone := List.countP_eq_zero.mp hc dec hdec
        simpa using hnone
  · intro now vs kind parameters hk
    rw [builtin_kinds] at hk
    simp only [List.mem_cons, List.not_mem_nil, or_false, not_or] at hk
    obtain ⟨h1, h2, h3, h4, h5⟩ := hk
    rw [perturb, if_neg h1, if_neg h2, if_neg h3, if_neg h4, if_neg h5]

/-- Witness for C9: the three clauses at an empty fleet with demand 7, an
empty fleet with demand -3, and the unregistered kind rain_dance. -/
theorem c9_error_handling_witness :
    optimize_induction 0 [] 7 = some [] ∧
    ((-3 : ℤ) ≤ 0 ∧ ∀ dec ∈ ([] : List InductionDecision),
      dec.recommended_status ≠ TrainsetStatus.revenue_service) ∧
    ("rain_dance" ∉ builtin_kinds ∧
      perturb 0 "rain_dance" [base_trainset "TS-A"] default_params
        = apply_custom_changes [base_trainset "TS-A"] default_params) :=
  ⟨c9_error_handling.1 0 7,
   ⟨by decide, c9_error_handling.2.1 0 (-3) [] [] (by decide) rfl⟩,
   ⟨by decide, c9_error_handling.2.2 0 [base_trainset "TS-A"] "rain_dance"
      default_params (by decide)⟩⟩

/-- C10: run_scenario with kind increased_demand returns the baseline
allocation twice over: the perturbation returns the vehicle list unmodified
and both policy invocations inside run_scenario use the same default service
demand of 20, so the parameters cannot change the demand actually used and
the scenario decisions equal the baseline decisions, order included. -/
theorem c10_increased_demand_identity (now : ℤ) (vs : List Trainset)
    (parameters : ScenarioParams) :
    scenario_run now vs "increased_demand" parameters
      = (optimize_induction now vs 20).map fun ds =>
          { scenario_type := "increased_demand"
            baseline_decisions := ds
            scenario_decisions := ds
            comparison := compare_allocations ds ds : ScenarioResult } := by
  have hpert : perturb now "increased_demand" vs parameters = vs := by
    rw [perturb, if_neg (by decide), if_neg (by decide), if_pos rfl]
    rfl
  rw [scenario_run, hpert]
  cases h : optimize_induction now vs 20 with
  | none => rfl
  | some ds => rfl

/-!  Helper lemmas about the comparator's dicts. -/

theorem compare_allocations_changed (baseline scenario : List InductionDecision) :
    (compare_allocations baseline scenario).changed_trainsets
      = (build_status_dict baseline).filterMap (fun kv =>
          if dict_get (build_status_dict scenario) kv.1 = some kv.2 then none
          else some { trainset_id := kv.1, baseline_status := kv.2,
                      scenario_status := dict_get (build_status_dict scenario) kv.1 }) := rfl

theorem compare_allocations_baseline_counts (baseline scenario : List InductionDecision) :
    (compare_allocations baseline scenario).baseline_counts = count_by_status baseline := rfl

theorem compare_allocations_scenario_counts (baseline scenario : List InductionDecision) :
    (compare_allocations baseline scenario).scenario_counts = count_by_status scenario := rfl

theorem compare_allocations_differences (baseline scenario : List InductionDecision) :
    (compare_allocations baseline scenario).differences
      = fun st => (count_by_status scenario st : ℤ) - (count_by_status baseline st : ℤ) := rfl

theorem compare_allocations_total (baseline scenario : List InductionDecision) :
    (compare_allocations baseline scenario).total_changes
      = (compare_allocations baseline scenario).changed_trainsets.length := rfl

theorem dict_insert_fresh {m : List (String × TrainsetStatus)} {k : String}
    (h : ∀ kv ∈ m, kv.1 ≠ k) (v : TrainsetStatus) :
    dict_insert m k v = m ++ [(k, v)] := by
  induction m with
  | nil => rfl
  | cons kv rest ih =>
      rw [dict_insert, if_neg (h kv (List.mem_cons_self kv rest)),
        ih fun x hx => h x (List.mem_cons_of_mem kv hx)]
      rfl

theorem build_status_dict_aux (ds : List InductionDecision) :
    ∀ m : List (String × TrainsetStatus),
      (ds.map fun d => d.trainset_id).Nodup →
      (∀ d ∈ ds, ∀ kv ∈ m, kv.1 ≠ d.trainset_id) →
      ds.foldl (fun m d => dict_insert m d.trainset_id d.recommended_status) m
        = m ++ ds.map fun d => (d.trainset_id, d.recommended_status) := by
  induction ds with
  | nil =>
      intro m _ _
      simp
  | cons d rest ih =>
      intro m hnd hfresh
      rw [List.map_cons, List.nodup_cons] at hnd
      rw [List.foldl_cons,
        dict_insert_fresh (fun kv hkv => hfresh d (List.mem_cons_self d rest) kv hkv)
          d.recommended_status,
        ih (m ++ [(d.trainset_id, d.recommended_status)]) hnd.2 ?_]
      · rw [List.map_cons, List.append_assoc]
        rfl
      · intro e he kv hkv
        rcases List.mem_append.mp hkv with hm | hsingle
        · exact hfresh e (List.mem_cons_of_mem d he) kv hm
        · rw [List.mem_singleton] at hsingle
          subst hsingle
          intro hk
          have hk' : d.trainset_id = e.trainset_id := hk
          exact hnd.1 (by rw [hk']; exact List.mem_map_of_mem (fun d => d.trainset_id) he)

theorem build_status_dict_nodup {ds : List InductionDecision}
    (h : (ds.map fun d => d.trainset_id).Nodup) :
    build_status_dict ds = ds.map fun d => (d.trainset_id, d.recommended_status) := by
  have := build_status_dict_aux ds [] h (by simp)
  simpa [build_status_dict] using this

theorem dict_get_map (ds : List InductionDecision) (k : String) :
    dict_get (ds.map fun d => (d.trainset_id, d.recommended_status)) k
      = decision_status ds k := by
  rw [dict_get, List.find?_map, Option.map_map, decision_status]
  rfl

theorem decision_status_some {ds : List InductionDecision} {i : String}
    {st : TrainsetStatus} (h : decision_status ds i = some st) :
    ∃ d ∈ ds, d.trainset_id = i ∧ d.recommended_status = st := by
  rw [decision_status] at h
  cases hf : ds.find? (fun d => d.trainset_id == i) with
  | none =>
      rw [hf] at h
      simp at h
  | some d =>
      rw [hf] at h
      simp only [Option.map_some', Option.some.injEq] at h
      refine ⟨d, List.mem_of_find?_eq_some hf, ?_, h⟩
      have hbeq := List.find?_some hf
      exact eq_of_beq hbeq

theorem decision_status_none {ds : List InductionDecision} {i : String}
    (h : decision_status ds i = none) : ∀ d ∈ ds, d.trainset_id ≠ i := by
  rw [decision_status] at h
  cases hf : ds.find? (fun d => d.trainset_id == i) with
  | some d =>
      rw [hf] at h
      simp at h
  | none =>
      intro d hd
      have := List.find?_eq_none.mp hf d hd
      simpa using this

theorem decision_status_of_mem {ds : List InductionDecision}
    (h : (ds.map fun d => d.trainset_id).Nodup) {d : InductionDecision}
    (hd : d ∈ ds) :
    decision_status ds d.trainset_id = some d.recommended_status := by
  induction ds with
  | nil => cases hd
  | cons e rest ih =>
      rw [List.map_cons, List.nodup_cons] at h
      rcases List.mem_cons.mp hd with rfl | hd'
      · rw [decision_status, List.find?_cons_of_pos _ (by simp)]
        rfl
      · have hstep : List.find? (fun x : InductionDecision => x.trainset_id == d.trainset_id)
            (e :: rest)
            = List.find? (fun x : InductionDecision => x.trainset_id == d.trainset_id) rest := by
          have he : (e.trainset_id == d.trainset_id) = false := by
            simp only [beq_eq_false_iff_ne, ne_eq]
            intro he
            exact h.1 (he.symm ▸ List.mem_map_of_mem (fun d => d.trainset_id) hd')
          rw [List.find?_cons]
          simp [he]
        rw [decision_status, hstep]
        exact ih h.2 hd'

theorem decision_status_perm {s₁ s₂ : List InductionDecision}
    (hperm : s₁ ~ s₂) (h : (s₁.map fun d => d.trainset_id).Nodup) (k : String) :
    decision_status s₁ k = decision_status s₂ k := by
  have h₂ : (s₂.map fun d => d.trainset_id).Nodup :=
    ((hperm.map fun d => d.trainset_id).nodup_iff).mp h
  cases hs : decision_status s₁ k with
  | none =>
      cases hs2 : decision_status s₂ k with
      | none => rfl
      | some st =>
          obtain ⟨d, hd, hid, _⟩ := decision_status_some hs2
          exact absurd hid (decision_status_none hs d (hperm.mem_iff.mpr hd))
  | some st =>
      obtain ⟨d, hd, hid, hst⟩ := decision_status_some hs
      have hmem := decision_status_of_mem h₂ (hperm.mem_iff.mp hd)
      rw [hid] at hmem
      rw [hmem, hst]

theorem compare_changed_eq {baseline scenario : List InductionDecision}
    (hb : (baseline.map fun d => d.trainset_id).Nodup)
    (hs : (scenario.map fun d => d.trainset_id).Nodup) :
    (compare_allocations baseline scenario).changed_trainsets
      = baseline.filterMap fun d =>
          if decision_status scenario d.trainset_id = some d.recommended_status then none
          else some { trainset_id := d.trainset_id
                      baseline_status := d.recommended_status
                      scenario_status := decision_status scenario d.trainset_id } := by
  rw [compare_allocations_changed, build_status_dict_nodup hb,
    build_status_dict_nodup hs, List.filterMap_map]
  congr 1
  funext d
  simp only [Function.comp, dict_get_map]

theorem count_by_status_sum (ds : List InductionDecision) :
    (∑ st : TrainsetStatus, count_by_status ds st) = ds.length := by
  induction ds with
  | nil => simp [count_by_status]
  | cons d rest ih =>
      simp only [count_by_status, List.countP_cons] at ih ⊢
      rw [Finset.sum_add_distrib, ih, List.length_cons]
      congr 1
      rw [Finset.sum_eq_single d.recommended_status]
      · simp
      · intro st _ hne
        simp [Ne.symm hne]
      · intro habs
        exact absurd (Finset.mem_univ _) habs

theorem compare_perm_scenario_aux {baseline s₁ s₂ : List InductionDecision}
    (hs₁ : (s₁.map fun d => d.trainset_id).Nodup) (hperm : s₁ ~ s₂) :
    compare_allocations baseline s₂ = compare_allocations baseline s₁ := by
  have hs₂ : (s₂.map fun d => d.trainset_id).Nodup :=
    ((hperm.map fun d => d.trainset_id).nodup_iff).mp hs₁
  have hcount : count_by_status s₂ = count_by_status s₁ := by
    funext st
    exact (hperm.countP_eq _).symm
  have hget : dict_get (build_status_dict s₂) = dict_get (build_status_dict s₁) := by
    funext k
    rw [build_status_dict_nodup hs₁, build_status_dict_nodup hs₂,
      dict_get_map, dict_get_map]
    exact (decision_status_perm hperm hs₁ k).symm
  have hch : (compare_allocations baseline s₂).changed_trainsets
      = (compare_allocations baseline s₁).changed_trainsets := by
    rw [compare_allocations_changed, compare_allocations_changed, hget]
  refine AllocationComparison.ext ?_ ?_ ?_ ?_ ?_
  · rw [compare_allocations_baseline_counts, compare_allocations_baseline_counts]
  · rw [compare_allocations_scenario_counts, compare_allocations_scenario_counts, hcount]
  · rw [compare_allocations_differences, compare_allocations_differences, hcount]
  · exact hch
  · rw [compare_allocations_total, compare_allocations_total, hch]

theorem compare_perm_baseline_changed {b₁ b₂ : List InductionDecision}
    (scenario : List InductionDecision)
    (hb₁ : (b₁.map fun d => d.trainset_id).Nodup) (hperm : b₁ ~ b₂) :
    (compare_allocations b₂ scenario).changed_trainsets
      ~ (compare_allocations b₁ scenario).changed_trainsets := by
  have hb₂ : (b₂.map fun d => d.trainset_id).Nodup :=
    ((hperm.map fun d => d.trainset_id).nodup_iff).mp hb₁
  rw [compare_allocations_changed, compare_allocations_changed,
    build_status_dict_nodup hb₁, build_status_dict_nodup hb₂,
    List.filterMap_map, List.filterMap_map]
  exact hperm.symm.filterMap _

/-- C8 (amended): over decision lists with one decision per vehicle id and the
same id set, the comparator's per-status counts sum to each run's total; its
changed list holds exactly the ids whose status differs, paired with both
statuses, and never an entry with a missing scenario status; the whole result
is invariant under permuting the scenario list; permuting the baseline list
leaves every count and difference unchanged and permutes the changed list
(whose order follows baseline order), keeping its length. -/
theorem c8_comparator (baseline scenario : List InductionDecision)
    (hb : (baseline.map fun d => d.trainset_id).Nodup)
    (hs : (scenario.map fun d => d.trainset_id).Nodup)
    (hset : (baseline.map fun d => d.trainset_id)
      ~ (scenario.map fun d => d.trainset_id)) :
    ((∑ st : TrainsetStatus,
        (compare_allocations baseline scenario).baseline_counts st)
      = baseline.length) ∧
    ((∑ st : TrainsetStatus,
        (compare_allocations baseline scenario).scenario_counts st)
      = scenario.length) ∧
    (∀ (i : String) (b s : TrainsetStatus),
      (⟨i, b, some s⟩ : StatusChange)
          ∈ (compare_allocations baseline scenario).changed_trainsets
        ↔ (decision_status baseline i = some b ∧
           decision_status scenario i = some s ∧ b ≠ s)) ∧
    (∀ (i : String) (b : TrainsetStatus),
      (⟨i, b, none⟩ : StatusChange)
        ∉ (compare_allocations baseline scenario).changed_trainsets) ∧
    (∀ s₂, scenario ~ s₂ →
      compare_allocations baseline s₂ = compare_allocations baseline scenario) ∧
    (∀ b₂, baseline ~ b₂ →
      (compare_allocations b₂ scenario).baseline_counts
          = (compare_allocations baseline scenario).baseline_counts ∧
      (compare_allocations b₂ scenario).scenario_counts
          = (compare_allocations baseline scenario).scenario_counts ∧
      (compare_allocations b₂ scenario).differences
          = (compare_allocations baseline scenario).differences ∧
      (compare_allocations b₂ scenario).changed_trainsets
          ~ (compare_allocations baseline scenario).changed_trainsets ∧
      (compare_allocations b₂ scenario).total_changes
          = (compare_allocations baseline scenario).total_changes) := by
  refine ⟨?_, ?_, ?_, ?_, ?_, ?_⟩
  · rw [compare_allocations_baseline_counts]
    exact count_by_status_sum baseline
  · rw [compare_allocations_scenario_counts]
    exact count_by_status_sum scenario
  · intro i b s
    rw [compare_changed_eq hb hs, List.mem_filterMap]
    constructor
    · rintro ⟨d, hd, hf⟩
      by_cases hcond : decision_status scenario d.trainset_id
          = some d.recommended_status
      · rw [if_pos hcond] at hf
        cases hf
      · rw [if_neg hcond] at hf
        simp only [Option.some.injEq, StatusChange.mk.injEq] at hf
        obtain ⟨hi, hbst, hss⟩ := hf
        refine ⟨?_, ?_, ?_⟩
        · rw [← hi, ← hbst]
          exact decision_status_of_mem hb hd
        · rw [← hi]
          exact hss
        · intro hbs
          apply hcond
          rw [hss, hbst, hbs]
    · rintro ⟨hbase, hscen, hneq⟩
      obtain ⟨d, hd, hid, hst⟩ := decision_status_some hbase
      refine ⟨d, hd, ?_⟩
      rw [hid, hst, hscen,
        if_neg (by simp only [Option.some.injEq]; exact fun hsb => hneq hsb.symm)]
  · intro i b
    rw [compare_changed_eq hb hs, List.mem_filterMap]
    rintro ⟨d, hd, hf⟩
    by_cases hcond : decision_status scenario d.trainset_id
        = some d.recommended_status
    · rw [if_pos hcond] at hf
      cases hf
    · rw [if_neg hcond] at hf
      simp only [Option.some.injEq, StatusChange.mk.injEq] at hf
      obtain ⟨hi, _, hss⟩ := hf
      have hall := decision_status_none hss
      have hmm : d.trainset_id ∈ scenario.map fun d => d.trainset_id :=
        hset.mem_iff.mp (List.mem_map_of_mem (fun d => d.trainset_id) hd)
      obtain ⟨e, he, heid⟩ := List.mem_map.mp hmm
      exact hall e he heid
  · intro s₂ hp
    exact compare_perm_scenario_aux hs hp
  · intro b₂ hp
    have hch := compare_perm_baseline_changed scenario hb hp
    refine ⟨?_, ?_, ?_, hch, ?_⟩
    · rw [compare_allocations_baseline_counts, compare_allocations_baseline_counts]
      funext st
      exact (hp.countP_eq _).symm
    · rw [compare_allocations_scenario_counts, compare_allocations_scenario_counts]
    · rw [compare_allocations_differences, compare_allocations_differences]
      funext st
      rw [show count_by_status b₂ st = count_by_status baseline st from
        (hp.countP_eq _).symm]
    · rw [compare_allocations_total, compare_allocations_total]
      exact hch.length_eq

/-- A bare decision fixture carrying only an id and a status. -/
def dec_fix (i : String) (st : TrainsetStatus) : InductionDecision :=
  { trainset_id := i
    recommended_status := st
    priority_score := 0
    reasoning := []
    conflicts := []
    estimated_service_hours := 0 }

/-- Baseline decision list for the comparator witness. -/
def c8_baseline : List InductionDecision :=
  [dec_fix "A" TrainsetStatus.standby, dec_fix "B" TrainsetStatus.standby]

/-- Scenario decision list for the comparator witness. -/
def c8_scenario : List InductionDecision :=
  [dec_fix "A" TrainsetStatus.maintenance, dec_fix "B" TrainsetStatus.standby]

/-- Witness for C8 on a two-vehicle pair of runs where exactly one vehicle
changes status. -/
theorem c8_comparator_witness :
    ((∑ st : TrainsetStatus,
        (compare_allocations c8_baseline c8_scenario).baseline_counts st)
      = c8_baseline.length) ∧
    ((∑ st : TrainsetStatus,
        (compare_allocations c8_baseline c8_scenario).scenario_counts st)
      = c8_scenario.length) ∧
    (∀ (i : String) (b s : TrainsetStatus),
      (⟨i, b, some s⟩ : StatusChange)
          ∈ (compare_allocations c8_baseline c8_scenario).changed_trainsets
        ↔ (decision_status c8_baseline i = some b ∧
           decision_status c8_scenario i = some s ∧ b ≠ s)) ∧
    (∀ (i : String) (b : TrainsetStatus),
      (⟨i, b, none⟩ : StatusChange)
        ∉ (compare_allocations c8_baseline c8_scenario).changed_trainsets) ∧
    (∀ s₂, c8_scenario ~ s₂ →
      compare_allocations c8_baseline s₂
        = compare_allocations c8_baseline c8_scenario) ∧
    (∀ b₂, c8_baseline ~ b₂ →
      (compare_allocations b₂ c8_scenario).baseline_counts
          = (compare_allocations c8_baseline c8_scenario).baseline_counts ∧
      (compare_allocations b₂ c8_scenario).scenario_counts
          = (compare_allocations c8_baseline c8_scenario).scenario_counts ∧
      (compare_allocations b₂ c8_scenario).differences
          = (compare_allocations c8_baseline c8_scenario).differences ∧
      (compare_allocations b₂ c8_scenario).changed_trainsets
          ~ (compare_allocations c8_baseline c8_scenario).changed_trainsets ∧
      (compare_allocations b₂ c8_scenario).total_changes
          = (compare_allocations c8_baseline c8_scenario).total_changes) :=
  c8_comparator c8_baseline c8_scenario (by decide) (by decide) (by decide)

/-- Counterexample to C8 as stated: permuting the baseline list reorders the
changed-vehicle list (it is built by iterating the baseline dict in insertion
order), so the comparator's result is not invariant under permutation of the
baseline input. -/
theorem c8_comparator_cx :
    [dec_fix "A" TrainsetStatus.standby, dec_fix "B" TrainsetStatus.standby]
      ~ [dec_fix "B" TrainsetStatus.standby, dec_fix "A" TrainsetStatus.standby] ∧
    compare_allocations
        [dec_fix "A" TrainsetStatus.standby, dec_fix "B" TrainsetStatus.standby]
        [dec_fix "A" TrainsetStatus.maintenance, dec_fix "B" TrainsetStatus.maintenance]
      ≠ compare_allocations
        [dec_fix "B" TrainsetStatus.standby, dec_fix "A" TrainsetStatus.standby]
        [dec_fix "A" TrainsetStatus.maintenance, dec_fix "B" TrainsetStatus.maintenance] := by
  constructor
  · exact List.Perm.swap (dec_fix "B" TrainsetStatus.standby)
      (dec_fix "A" TrainsetStatus.standby) []
  · intro h
    have hch := congrArg AllocationComparison.changed_trainsets h
    exact absurd hch (by decide)
